import Mathlib

/-!
Verification development for the resilient request-execution core of
`elastic-transport-js`: the error taxonomy (`src/errors.ts`), the per-node
connection executor, the compression codecs used by response handling, and
the transport retry loop.

The error classes are embedded directly from `src/errors.ts`.  The
`UndiciConnection` executor, the `Transport` orchestrator and the zlib
codecs are not part of the available sources (only their tests are), so
they are modelled from the specification; each such definition carries a
doc comment starting with `Modelled from the spec:`.
-/

namespace ElasticTransport

/-! ## JavaScript value model

A small model of the JavaScript values that can appear in `meta.body`:
`undefined`, `null`, booleans, numbers, strings, objects and arrays.
Property access ignores prototype properties (the fields the error code
reads — `status`, `error`, `type` — are plain data fields). -/

inductive JSValue where
  | undefined : JSValue
  | null : JSValue
  | boolean : Bool → JSValue
  | number : Int → JSValue
  | string : String → JSValue
  | object : List (String × JSValue) → JSValue
  | array : List JSValue → JSValue
deriving Repr

/-- JavaScript `typeof`; note `typeof null` and `typeof []` are both `"object"`. -/
def jsTypeof : JSValue → String
  | .undefined => "undefined"
  | .null => "object"
  | .boolean _ => "boolean"
  | .number _ => "number"
  | .string _ => "string"
  | .object _ => "object"
  | .array _ => "object"

/-- A value is nullish (`null` or `undefined`), the condition tested by `??` and `?.`. -/
def isNullish : JSValue → Bool
  | .undefined => true
  | .null => true
  | _ => false

/-- Plain property access `v.f`: throws a `TypeError` (modelled as `.error`)
on `null`/`undefined`, returns the field or `undefined` on objects, and
`undefined` on other primitives. -/
def getProp (v : JSValue) (f : String) : Except String JSValue :=
  match v with
  | .null => .error "TypeError"
  | .undefined => .error "TypeError"
  | .object fields => .ok ((fields.lookup f).getD .undefined)
  | _ => .ok .undefined

/-- Optional-chaining access `v?.f`: `undefined` on nullish receivers, never throws. -/
def getPropOpt (v : JSValue) (f : String) : JSValue :=
  match v with
  | .null => .undefined
  | .undefined => .undefined
  | .object fields => (fields.lookup f).getD .undefined
  | _ => .undefined

/-- Nullish coalescing `a ?? b`. -/
def nullishCoalesce (a b : JSValue) : JSValue :=
  if isNullish a then b else a

/-! ## The `Result` meta carried by errors

`src/errors.ts` imports `Result` from `./types`, which is not among the
available sources. -/

/-- Modelled from the spec: the `Result` type of the missing `./types`
module, §3 of the spec — `{statusCode, headers, body, nodeId}` returned on
a completed HTTP exchange regardless of status code.  `statusCode` and
`headers` are optional on the TypeScript side. -/
structure Result where
  body : JSValue
  statusCode : Option Int
  headers : Option (List (String × String))
  nodeId : Option String
deriving Repr

/-! ## Error taxonomy (embedded from `src/errors.ts`) -/

/-- The eight concrete error classes exported by `src/errors.ts`. -/
inductive ErrClass where
  | timeoutError
  | connectionError
  | noLivingConnectionsError
  | serializationError
  | deserializationError
  | configurationError
  | responseError
  | requestAbortedError
deriving DecidableEq, Repr

/-- The `name` each constructor assigns (`this.name = '...'` in each class body). -/
def className : ErrClass → String
  | .timeoutError => "TimeoutError"
  | .connectionError => "ConnectionError"
  | .noLivingConnectionsError => "NoLivingConnectionsError"
  | .serializationError => "SerializationError"
  | .deserializationError => "DeserializationError"
  | .configurationError => "ConfigurationError"
  | .responseError => "ResponseError"
  | .requestAbortedError => "RequestAbortedError"

/-- The prototype chain of each class: every class in `src/errors.ts`
`extends ElasticsearchClientError`, which `extends Error`. -/
def protoChain (c : ErrClass) : List String :=
  [className c, "ElasticsearchClientError", "Error"]

/-- The `message ?? '...'` fallback string of each constructor
(`'Response Error'` is the fallback inside the `ResponseError` constructor). -/
def defaultMessage : ErrClass → String
  | .timeoutError => "Timeout Error"
  | .connectionError => "Connection Error"
  | .noLivingConnectionsError =>
      "Given the configuration, the ConnectionPool was not able to find a usable Connection for this request."
  | .serializationError => "Serialization Error"
  | .deserializationError => "Deserialization Error"
  | .configurationError => "Configuration Error"
  | .responseError => "Response Error"
  | .requestAbortedError => "Request aborted"

/-- A constructed error value: runtime class, `name`, `message` (a `JSValue`
since `ResponseError` can assign a non-string `error.type` to it), the
optional `meta : Result`, and the `data` payload of the (de)serialization
errors. -/
structure ErrorInstance where
  cls : ErrClass
  name : String
  message : JSValue
  meta : Option Result
  data : Option JSValue
deriving Repr

/-- `new TimeoutError(message, meta?)` — `this.message = message ?? 'Timeout Error'`. -/
def mkTimeoutError (message : Option String) (meta : Option Result) : ErrorInstance :=
  { cls := .timeoutError, name := "TimeoutError"
    message := .string (message.getD "Timeout Error"), meta := meta, data := none }

/-- `new ConnectionError(message, meta?)`. -/
def mkConnectionError (message : Option String) (meta : Option Result) : ErrorInstance :=
  { cls := .connectionError, name := "ConnectionError"
    message := .string (message.getD "Connection Error"), meta := meta, data := none }

/-- `new NoLivingConnectionsError(message, meta)` — `meta` is mandatory. -/
def mkNoLivingConnectionsError (message : Option String) (meta : Result) : ErrorInstance :=
  { cls := .noLivingConnectionsError, name := "NoLivingConnectionsError"
    message := .string (message.getD (defaultMessage .noLivingConnectionsError))
    meta := some meta, data := none }

/-- `new SerializationError(message, data)` — carries the object that failed to encode. -/
def mkSerializationError (message : Option String) (data : JSValue) : ErrorInstance :=
  { cls := .serializationError, name := "SerializationError"
    message := .string (message.getD "Serialization Error"), meta := none, data := some data }

/-- `new DeserializationError(message, data)` — carries the raw string that failed to decode. -/
def mkDeserializationError (message : Option String) (data : String) : ErrorInstance :=
  { cls := .deserializationError, name := "DeserializationError"
    message := .string (message.getD "Deserialization Error"), meta := none
    data := some (.string data) }

/-- `new ConfigurationError(message)` — carries only the message. -/
def mkConfigurationError (message : Option String) : ErrorInstance :=
  { cls := .configurationError, name := "ConfigurationError"
    message := .string (message.getD "Configuration Error"), meta := none, data := none }

/-- `new RequestAbortedError(message, meta?)`. -/
def mkRequestAbortedError (message : Option String) (meta : Option Result) : ErrorInstance :=
  { cls := .requestAbortedError, name := "RequestAbortedError"
    message := .string (message.getD "Request aborted"), meta := meta, data := none }

/-- The expression `meta.body?.error?.type` from the `ResponseError` constructor. -/
def errType (meta : Result) : JSValue :=
  getPropOpt (getPropOpt meta.body "error") "type"

/-- The `message` computed by the `ResponseError` constructor:
`typeof meta.body === 'object' ? meta.body?.error?.type ?? 'Response Error' : 'Response Error'`. -/
def responseErrorMessage (meta : Result) : JSValue :=
  if jsTypeof meta.body = "object" then
    nullishCoalesce (errType meta) (.string "Response Error")
  else
    .string "Response Error"

/-- `new ResponseError(meta)` — no message parameter; the message is derived from the body. -/
def mkResponseError (meta : Result) : ErrorInstance :=
  { cls := .responseError, name := "ResponseError"
    message := responseErrorMessage meta, meta := some meta, data := none }

/-- Dispatching constructor used to quantify over the whole taxonomy: calls
the class's own constructor; `meta` feeds the classes that accept a meta and
`d` the ones that carry a data payload, and `ResponseError` ignores the
message parameter (its constructor does not take one). -/
def construct (c : ErrClass) (message : Option String) (meta : Result) (d : JSValue) :
    ErrorInstance :=
  match c with
  | .timeoutError => mkTimeoutError message (some meta)
  | .connectionError => mkConnectionError message (some meta)
  | .noLivingConnectionsError => mkNoLivingConnectionsError message meta
  | .serializationError => mkSerializationError message d
  | .deserializationError =>
      mkDeserializationError message (match d with | .string s => s | _ => "")
  | .configurationError => mkConfigurationError message
  | .responseError => mkResponseError meta
  | .requestAbortedError => mkRequestAbortedError message (some meta)

/-- The `ResponseError#statusCode` getter:
`typeof meta.body === 'object' && typeof meta.body.status === 'number'` picks
`meta.body.status`, otherwise `meta.statusCode`.  The second conjunct uses a
plain (non-optional) property access, so a `null` body — for which
`typeof meta.body === 'object'` holds — throws a `TypeError`. -/
def responseStatusCodeGetter (meta : Result) : Except String (Option Int) :=
  if jsTypeof meta.body = "object" then
    match getProp meta.body "status" with
    | .error e => .error e
    | .ok v =>
      match v with
      | .number n => .ok (some n)
      | _ => .ok meta.statusCode
  else
    .ok meta.statusCode

/-- The `ResponseError#body` getter: returns `meta.body` unchanged. -/
def responseBodyGetter (meta : Result) : JSValue :=
  meta.body

/-- The `ResponseError#headers` getter: returns `meta.headers` unchanged. -/
def responseHeadersGetter (meta : Result) : Option (List (String × String)) :=
  meta.headers

/-- Whether a constructed error value carries response information (status
code, headers, raw body): the only vehicle for these in `src/errors.ts` is
the `meta : Result` field. -/
def exposesResponseInfo (e : ErrorInstance) : Bool :=
  e.meta.isSome

/-! ## Compression codecs

Response handling decompresses bodies whose `content-encoding` is gzip or
deflate.  The codecs themselves are Node's zlib, external to this
repository, so they are modelled here at the byte level by the stored-block
subset of DEFLATE (blocks of at most 65535 raw bytes, each preceded by a
final-block flag and a two-byte little-endian length) with a gzip container
adding a magic header and a length trailer. -/

/-- Maximum payload of one stored block. -/
def chunkBound : Nat := 65535

/-- Modelled from the spec: splits a payload into the stored-block chunks a
deflate encoder would emit — each of length at most `chunkBound`, the last
possibly empty only when the whole payload is empty. -/
def splitChunks (l : List Nat) : List (List Nat) :=
  if _h : l.length ≤ chunkBound then [l]
  else (l.take chunkBound) :: splitChunks (l.drop chunkBound)
termination_by l.length
decreasing_by
  simp only [List.length_drop]
  simp only [chunkBound] at *
  omega

/-- One stored block: final-block flag, two-byte little-endian length, raw data. -/
def encodeBlock (lastBlock : Bool) (data : List Nat) : List Nat :=
  (if lastBlock then 1 else 0) :: (data.length % 256) :: (data.length / 256) :: data

/-- Encode a nonempty chunk list as a block sequence, flagging the last block final. -/
def encodeBlocks : List (List Nat) → List Nat
  | [] => []
  | [d] => encodeBlock true d
  | d :: d2 :: rest => encodeBlock false d ++ encodeBlocks (d2 :: rest)

/-- Modelled from the spec: the deflate encoder (stored-block subset). -/
def deflateEnc (l : List Nat) : List Nat :=
  encodeBlocks (splitChunks l)

/-- Block-sequence decoder: consumes stored blocks until the final flag,
returning the accumulated payload and the bytes after the final block.
`fuel` bounds the number of blocks read. -/
def inflateBlocks : Nat → List Nat → List Nat → Option (List Nat × List Nat)
  | 0, _, _ => none
  | fuel + 1, acc, f :: l0 :: l1 :: rest =>
      let len := l0 + 256 * l1
      if rest.length < len then none
      else if f = 1 then some (acc ++ rest.take len, rest.drop len)
      else if f = 0 then inflateBlocks fuel (acc ++ rest.take len) (rest.drop len)
      else none
  | _ + 1, _, _ => none

/-- Modelled from the spec: the deflate decoder — the whole input must be
one block sequence with nothing after the final block. -/
def inflateDec (bs : List Nat) : Option (List Nat) :=
  match inflateBlocks (bs.length + 1) [] bs with
  | some (data, []) => some data
  | _ => none

/-- Four-byte little-endian encoding of a length (the gzip ISIZE trailer,
length modulo 2^32). -/
def le32 (n : Nat) : List Nat :=
  [n % 256, n / 256 % 256, n / 256 / 256 % 256, n / 256 / 256 / 256 % 256]

/-- Modelled from the spec: the gzip encoder — magic header, deflate body,
length trailer. -/
def gzipEnc (l : List Nat) : List Nat :=
  31 :: 139 :: 8 :: (deflateEnc l ++ le32 l.length)

/-- Modelled from the spec: the gzip decoder — checks the magic header,
inflates the body, and checks the trailer against the decoded length. -/
def gunzipDec (bs : List Nat) : Option (List Nat) :=
  match bs with
  | 31 :: 139 :: 8 :: rest =>
    match inflateBlocks (rest.length + 1) [] rest with
    | some (data, trailer) => if trailer = le32 data.length then some data else none
    | none => none
  | _ => none

/-- The `content-encoding` values response handling reacts to. -/
inductive ContentEncoding where
  | identity
  | gzip
  | deflate
deriving DecidableEq, Repr

/-- Modelled from the spec: response-body decoding — if `content-encoding`
indicates gzip or deflate, decompress before returning. -/
def decodeResponseBody : ContentEncoding → List Nat → Option (List Nat)
  | .identity, bs => some bs
  | .gzip, bs => gunzipDec bs
  | .deflate, bs => inflateDec bs

/-! ## Connection executor

`UndiciConnection` is not among the available sources (only its test file
is); the executor is modelled from the spec, §4.2: construction validation,
the per-attempt timeout, the pre-send cancellation check, and the two
response-size caps with the abort messages exercised by the tests. -/

/-- The manual connection-reuse (`agent`) option: an options object, an
explicit `false`, or an agent factory function (spec §6,
`connectionReuse: options|off|factory`). -/
inductive AgentSpec where
  | options
  | off
  | factory
deriving DecidableEq, Repr

/-- Modelled from the spec: the connection construction options this model
needs — the connection-reuse override, the proxy URL, the connection-level
default per-attempt timeout, and the two response-size caps. -/
structure ConnectionOptions where
  agent : Option AgentSpec
  proxy : Option String
  timeout : Nat
  maxBuffer : Nat
  maxString : Nat
deriving Repr

/-- A validated connection: the configured defaults snapshot. -/
structure ConnectionConfig where
  timeout : Nat
  maxBuffer : Nat
  maxString : Nat
deriving Repr

/-- Modelled from the spec: the message of the `ConfigurationError` raised
when connection-reuse and proxy options conflict. -/
def agentProxyConflictMessage : String :=
  "Opts agent and proxy can not be used together"

/-- Modelled from the spec: connection construction — conflicting manual
connection-reuse and proxy options fail synchronously with
`ConfigurationError`; construction performs no network access (it is a pure
function of the options). -/
def mkConnection (o : ConnectionOptions) : Except ErrorInstance ConnectionConfig :=
  if o.agent.isSome && o.proxy.isSome then
    .error (mkConfigurationError (some agentProxyConflictMessage))
  else
    .ok { timeout := o.timeout, maxBuffer := o.maxBuffer, maxString := o.maxString }

/-- Per-call request parameters: an optional per-call timeout override and
whether the cancellation token has already fired before the send. -/
structure RequestParams where
  timeout : Option Nat
  aborted : Bool
deriving Repr

/-- The environment of one HTTP exchange: how long the handler takes to
complete the response, the declared `content-length`, the
`content-encoding`, and the response body as the chunk sequence in which
its bytes arrive. -/
structure Exchange where
  responseDelay : Nat
  contentLength : Nat
  encoding : ContentEncoding
  chunks : List (List Nat)
deriving Repr

/-- The abort message for a size exceeding the buffer cap, as asserted by
the test `Content length too big (buffer)`. -/
def bufferCapMessage (n limit : Nat) : String :=
  "The content length (" ++ toString n ++ ") is bigger than the maximum allowed buffer ("
    ++ toString limit ++ ")"

/-- The abort message for a size exceeding the string cap, as asserted by
the test `Content length too big (string)`. -/
def stringCapMessage (n limit : Nat) : String :=
  "The content length (" ++ toString n ++ ") is bigger than the maximum allowed string ("
    ++ toString limit ++ ")"

/-- A completed response before decompression: raw bytes and their encoding. -/
structure ResponseBody where
  raw : List Nat
  encoding : ContentEncoding
deriving Repr

/-- Modelled from the spec: chunk accumulation under the two size caps —
before appending a chunk the running total is checked against the buffer
cap and then the string cap; exceeding either aborts with a
`RequestAbortedError` naming the offending size and the limit.  Returns
the outcome together with the number of bytes actually retained
(the allocation) at that point. -/
def accumChunks (mBuf mStr : Nat) (acc : List Nat) :
    List (List Nat) → Except ErrorInstance (List Nat) × Nat
  | [] => (.ok acc, acc.length)
  | c :: cs =>
    if acc.length + c.length > mBuf then
      (.error (mkRequestAbortedError
        (some (bufferCapMessage (acc.length + c.length) mBuf)) none), acc.length)
    else if acc.length + c.length > mStr then
      (.error (mkRequestAbortedError
        (some (stringCapMessage (acc.length + c.length) mStr)) none), acc.length)
    else accumChunks mBuf mStr (acc ++ c) cs

/-- Total number of body bytes observed across all chunks of an exchange. -/
def totalBytes (cs : List (List Nat)) : Nat :=
  (cs.map List.length).sum

/-- The effective per-attempt timeout: the per-call override when present,
else the connection-level default. -/
def effectiveTimeout (conn : ConnectionConfig) (params : RequestParams) : Nat :=
  params.timeout.getD conn.timeout

/-- Outcome of one `Connection.request` attempt: the result, whether the
network was touched, how many attempts were counted, and how many response
bytes were retained. -/
structure RequestOutcome where
  result : Except ErrorInstance ResponseBody
  networkTouched : Bool
  attempts : Nat
  allocated : Nat
deriving Repr

/-- Modelled from the spec: `Connection.request` (§4.2) —
1. checks the cancellation token before issuing I/O: if already fired,
   fails with `RequestAbortedError` without touching the network;
2. starts a timer for the effective per-attempt timeout and fails with
   `TimeoutError`, fixed message "Request timed out", when the handler takes
   longer;
3. checks the declared `content-length` against the buffer cap and then the
   string cap, aborting with `RequestAbortedError` before any allocation;
4. accumulates the body chunks under the same caps. -/
def connectionRequest (conn : ConnectionConfig) (params : RequestParams) (env : Exchange) :
    RequestOutcome :=
  if params.aborted then
    { result := .error (mkRequestAbortedError (some "Request aborted") none)
      networkTouched := false, attempts := 0, allocated := 0 }
  else if effectiveTimeout conn params < env.responseDelay then
    { result := .error (mkTimeoutError (some "Request timed out") none)
      networkTouched := true, attempts := 1, allocated := 0 }
  else if env.contentLength > conn.maxBuffer then
    { result := .error (mkRequestAbortedError
        (some (bufferCapMessage env.contentLength conn.maxBuffer)) none)
      networkTouched := true, attempts := 1, allocated := 0 }
  else if env.contentLength > conn.maxString then
    { result := .error (mkRequestAbortedError
        (some (stringCapMessage env.contentLength conn.maxString)) none)
      networkTouched := true, attempts := 1, allocated := 0 }
  else
    let out := accumChunks conn.maxBuffer conn.maxString [] env.chunks
    { result := out.1.map (fun bytes => { raw := bytes, encoding := env.encoding })
      networkTouched := true, attempts := 1, allocated := out.2 }

/-- Whether an attempt outcome surfaced a `ConfigurationError`. -/
def resultIsConfigurationError (o : RequestOutcome) : Bool :=
  match o.result with
  | .error e => e.cls = .configurationError
  | .ok _ => false

/-! ## Transport retry loop

The `Transport` orchestrator is not among the available sources; the
selection/retry state machine is modelled from the spec, §4.4, in the
scenario of claim C6: every attempt fails with `ConnectionError`. -/

/-- Modelled from the spec: `Pool.getConnection` restricted to what the
retry claim needs — returns an alive node not among the already-tried ids
of this call, or `none` when every alive node has been tried. -/
def poolGetConnection (pool : List String) (tried : List String) : Option String :=
  (pool.filter (fun n => n ∉ tried)).head?

/-- Modelled from the spec: the `SELECT → SEND → RETRY` loop when every
attempt fails with `ConnectionError` — each selection excludes the ids
already tried in this call; after a failed attempt the call retries while
retry budget remains; an empty selection is `FATAL(NoLivingConnectionsError)`.
Returns the sequence of selected node ids. -/
def retryLoop (pool : List String) (tried : List String) : Nat → List String
  | 0 =>
    match poolGetConnection pool tried with
    | none => []
    | some n => [n]
  | budget + 1 =>
    match poolGetConnection pool tried with
    | none => []
    | some n => n :: retryLoop pool (n :: tried) budget

/-- The node selections of one call with `maxRetries = r` whose every
attempt fails with `ConnectionError`: `r + 1` attempts are allowed. -/
def transportSelections (pool : List String) (r : Nat) : List String :=
  retryLoop pool [] r

/-- The candidate nodes of a selection: alive nodes not yet tried in this call. -/
def candidates (pool : List String) (tried : List String) : List String :=
  pool.filter (fun n => n ∉ tried)

/-! ## Helper lemmas: codecs -/

theorem splitChunks_flatten (l : List Nat) : (splitChunks l).flatten = l := by
  rw [splitChunks]
  split
  · simp
  · rw [List.flatten_cons, splitChunks_flatten (l.drop chunkBound), List.take_append_drop]
termination_by l.length
decreasing_by
  simp only [List.length_drop]
  simp only [chunkBound] at *
  omega

theorem splitChunks_ne_nil (l : List Nat) : splitChunks l ≠ [] := by
  rw [splitChunks]
  split <;> simp

theorem encodeBlocks_length_ge : ∀ bls : List (List Nat), bls.length ≤ (encodeBlocks bls).length
  | [] => by simp [encodeBlocks]
  | [d] => by simp [encodeBlocks, encodeBlock]
  | d :: d2 :: rest => by
      have ih := encodeBlocks_length_ge (d2 :: rest)
      simp only [encodeBlocks, encodeBlock, List.length_append, List.length_cons] at *
      omega

theorem inflateBlocks_step (fuel : Nat) (acc data tail : List Nat) (flag : Nat) :
    inflateBlocks (fuel + 1) acc
        (flag :: (data.length % 256) :: (data.length / 256) :: (data ++ tail)) =
      if flag = 1 then some (acc ++ data, tail)
      else if flag = 0 then inflateBlocks fuel (acc ++ data) tail
      else none := by
  have hlen : data.length % 256 + 256 * (data.length / 256) = data.length :=
    Nat.mod_add_div _ _
  rw [inflateBlocks]
  simp only [hlen]
  rw [if_neg (by simp only [List.length_append]; omega), List.take_left, List.drop_left]

theorem inflateBlocks_encodeBlocks :
    ∀ (bls : List (List Nat)) (acc tail : List Nat) (fuel : Nat),
      bls ≠ [] → bls.length ≤ fuel →
      inflateBlocks fuel acc (encodeBlocks bls ++ tail) = some (acc ++ bls.flatten, tail)
  | [], _, _, _, hne, _ => absurd rfl hne
  | [d], acc, tail, fuel, _, hf => by
      obtain ⟨f, rfl⟩ : ∃ f, fuel = f + 1 :=
        ⟨fuel - 1, by simp only [List.length_singleton] at hf; omega⟩
      have harr : encodeBlocks [d] ++ tail
          = 1 :: (d.length % 256) :: (d.length / 256) :: (d ++ tail) := by
        simp [encodeBlocks, encodeBlock]
      have h := inflateBlocks_step f acc d tail 1
      rw [if_pos rfl] at h
      rw [harr, h]
      simp
  | d :: d2 :: rest, acc, tail, fuel, _, hf => by
      obtain ⟨f, rfl⟩ : ∃ f, fuel = f + 1 := ⟨fuel - 1, by
        simp only [List.length_cons] at hf; omega⟩
      have ih := inflateBlocks_encodeBlocks (d2 :: rest) (acc ++ d) tail f (by simp)
        (by simp only [List.length_cons] at hf ⊢; omega)
      have harr : encodeBlocks (d :: d2 :: rest) ++ tail
          = 0 :: (d.length % 256) :: (d.length / 256)
              :: (d ++ (encodeBlocks (d2 :: rest) ++ tail)) := by
        simp [encodeBlocks, encodeBlock]
      have h := inflateBlocks_step f acc d (encodeBlocks (d2 :: rest) ++ tail) 0
      rw [if_neg (by omega), if_pos rfl] at h
      rw [harr, h, ih]
      simp

theorem inflateDec_deflateEnc (l : List Nat) : inflateDec (deflateEnc l) = some l := by
  have hfuel : (splitChunks l).length ≤ (deflateEnc l).length + 1 := by
    have := encodeBlocks_length_ge (splitChunks l)
    simp only [deflateEnc]
    omega
  have h := inflateBlocks_encodeBlocks (splitChunks l) [] [] ((deflateEnc l).length + 1)
    (splitChunks_ne_nil l) hfuel
  simp only [List.append_nil, List.nil_append, splitChunks_flatten] at h
  simp only [inflateDec, deflateEnc] at *
  rw [h]

theorem gunzipDec_gzipEnc (l : List Nat) : gunzipDec (gzipEnc l) = some l := by
  have hfuel : (splitChunks l).length ≤ (deflateEnc l ++ le32 l.length).length + 1 := by
    have := encodeBlocks_length_ge (splitChunks l)
    simp only [deflateEnc, List.length_append]
    omega
  have h := inflateBlocks_encodeBlocks (splitChunks l) [] (le32 l.length)
    ((deflateEnc l ++ le32 l.length).length + 1)
    (splitChunks_ne_nil l) hfuel
  simp only [List.nil_append, splitChunks_flatten] at h
  simp only [gunzipDec, gzipEnc, deflateEnc] at *
  rw [h]
  simp

/-! ## Helper lemmas: pool selection and the retry loop -/

theorem poolGetConnection_eq (pool tried : List String) :
    poolGetConnection pool tried = (candidates pool tried).head? := rfl

theorem candidates_nil (pool : List String) : candidates pool [] = pool := by
  simp [candidates]

theorem mem_candidates_not_tried {pool tried : List String} {x : String}
    (h : x ∈ candidates pool tried) : x ∉ tried := by
  have := List.of_mem_filter h
  simpa using this

theorem candidates_cons (pool tried : List String) (n : String) :
    candidates pool (n :: tried) = (candidates pool tried).filter (fun x => x ≠ n) := by
  simp only [candidates, List.filter_filter]
  apply List.filter_congr
  intro x _
  by_cases hxn : x = n <;> by_cases hxt : x ∈ tried <;>
    simp [List.mem_cons, hxn, hxt]

theorem candidates_after_select {pool tried : List String} {n : String} {t : List String}
    (hnd : (candidates pool tried).Nodup)
    (hc : candidates pool tried = n :: t) :
    candidates pool (n :: tried) = t := by
  have hn : n ∉ t := by
    rw [hc] at hnd
    exact (List.nodup_cons.mp hnd).1
  rw [candidates_cons, hc, List.filter_cons]
  simp only [decide_not]
  rw [if_neg (by simp)]
  apply List.filter_eq_self.mpr
  intro x hx
  simp only [decide_not, Bool.not_eq_true']
  exact decide_eq_false (fun he => hn (he ▸ hx))

theorem retryLoop_spec (pool : List String) (b : Nat) :
    ∀ tried : List String, (candidates pool tried).Nodup →
      (retryLoop pool tried b).length = min (candidates pool tried).length (b + 1)
      ∧ (retryLoop pool tried b).Nodup
      ∧ ∀ x ∈ retryLoop pool tried b, x ∉ tried := by
  induction b with
  | zero =>
    intro tried _
    rw [retryLoop, poolGetConnection_eq]
    cases hc : candidates pool tried with
    | nil => simp
    | cons n t =>
      refine ⟨by simp, by simp, ?_⟩
      intro x hx
      simp only [List.head?_cons, List.mem_singleton] at hx
      cases hx
      exact mem_candidates_not_tried (hc ▸ List.mem_cons_self _ t)
  | succ b ih =>
    intro tried hnd
    rw [retryLoop, poolGetConnection_eq]
    cases hc : candidates pool tried with
    | nil => simp
    | cons n t =>
      have hct : candidates pool (n :: tried) = t := candidates_after_select hnd hc
      have hndt : (candidates pool (n :: tried)).Nodup := by
        rw [hct]
        exact (List.nodup_cons.mp (hc ▸ hnd)).2
      obtain ⟨hlen, hndr, hmem⟩ := ih (n :: tried) hndt
      rw [hct] at hlen
      refine ⟨?_, ?_, ?_⟩
      · simp only [List.head?_cons, List.length_cons, hlen, List.length_cons]
        omega
      · simp only [List.head?_cons, List.nodup_cons]
        refine ⟨?_, hndr⟩
        intro hmem2
        exact (hmem n hmem2) (List.mem_cons_self n tried)
      · intro x hx
        simp only [List.head?_cons, List.mem_cons] at hx
        rcases hx with rfl | hx
        · exact mem_candidates_not_tried (hc ▸ List.mem_cons_self _ t)
        · intro hxt
          exact (hmem x hx) (List.mem_cons_of_mem n hxt)

/-! ## Helper lemmas: size-cap accumulation -/

theorem accumChunks_error_class :
    ∀ (cs : List (List Nat)) (mBuf mStr : Nat) (acc : List Nat) (e : ErrorInstance),
      (accumChunks mBuf mStr acc cs).1 = .error e → e.cls = .requestAbortedError
  | [], _, _, _, _, h => by simp [accumChunks] at h
  | c :: cs, mBuf, mStr, acc, e, h => by
      rw [accumChunks] at h
      split at h
      · injection h with h
        subst h
        rfl
      · split at h
        · injection h with h
          subst h
          rfl
        · exact accumChunks_error_class cs mBuf mStr (acc ++ c) e h

theorem accumChunks_overflow :
    ∀ (cs : List (List Nat)) (mBuf mStr : Nat) (acc : List Nat),
      acc.length ≤ mBuf → acc.length ≤ mStr →
      (mBuf < acc.length + totalBytes cs ∨ mStr < acc.length + totalBytes cs) →
      ∃ n limit,
        limit < n ∧ (accumChunks mBuf mStr acc cs).2 ≤ limit ∧
        ((limit = mBuf ∧ (accumChunks mBuf mStr acc cs).1 =
            .error (mkRequestAbortedError (some (bufferCapMessage n limit)) none)) ∨
         (limit = mStr ∧ (accumChunks mBuf mStr acc cs).1 =
            .error (mkRequestAbortedError (some (stringCapMessage n limit)) none)))
  | [], mBuf, mStr, acc, hb, hs, hover => by
      simp only [totalBytes, List.map_nil, List.sum_nil, Nat.add_zero] at hover
      omega
  | c :: cs, mBuf, mStr, acc, hb, hs, hover => by
      rw [accumChunks]
      by_cases h1 : acc.length + c.length > mBuf
      · rw [if_pos h1]
        exact ⟨acc.length + c.length, mBuf, h1, hb, Or.inl ⟨rfl, rfl⟩⟩
      · rw [if_neg h1]
        by_cases h2 : acc.length + c.length > mStr
        · rw [if_pos h2]
          exact ⟨acc.length + c.length, mStr, h2, hs, Or.inr ⟨rfl, rfl⟩⟩
        · rw [if_neg h2]
          apply accumChunks_overflow cs mBuf mStr (acc ++ c)
          · simp only [List.length_append]
            omega
          · simp only [List.length_append]
            omega
          · simp only [totalBytes, List.map_cons, List.sum_cons] at hover ⊢
            simp only [List.length_append]
            omega

theorem connectionRequest_no_configuration_error
    (conn : ConnectionConfig) (params : RequestParams) (env : Exchange) :
    resultIsConfigurationError (connectionRequest conn params env) = false := by
  rw [connectionRequest]
  split
  · rfl
  · split
    · rfl
    · split
      · rfl
      · split
        · rfl
        · simp only [resultIsConfigurationError]
          cases hout : (accumChunks conn.maxBuffer conn.maxString [] env.chunks).1 with
          | error e =>
            have := accumChunks_error_class env.chunks conn.maxBuffer conn.maxString [] e hout
            simp [hout, Except.map, this]
          | ok v => simp [hout, Except.map]

/-! ## Claim theorems -/

/-- Claim C1, counterexample: the claim states every raised error carries
status code, headers and raw response body, but a `ConfigurationError` —
constructed from a message alone — carries none of them (it has no `meta`
field, the only vehicle for response information in `src/errors.ts`). -/
theorem configurationError_no_response_info_cex :
    exposesResponseInfo (mkConfigurationError (some "Invalid options")) = false := rfl

/-- Claim C1, amended: the errors constructed with a `Result` meta
(`TimeoutError`, `ConnectionError`, `RequestAbortedError` when a meta is
supplied, and always `NoLivingConnectionsError` and `ResponseError`) expose
status code, headers and raw body through that meta unchanged;
`ConfigurationError`, `SerializationError` and `DeserializationError` carry
no response information, and the optional-meta classes omit it when no meta
is supplied. -/
theorem error_meta_exposure (msg : Option String) (meta : Result) (d : JSValue) (s : String) :
    ((mkTimeoutError msg (some meta)).meta = some meta
      ∧ (mkConnectionError msg (some meta)).meta = some meta
      ∧ (mkRequestAbortedError msg (some meta)).meta = some meta
      ∧ (mkNoLivingConnectionsError msg meta).meta = some meta
      ∧ (mkResponseError meta).meta = some meta)
    ∧ (responseBodyGetter meta = meta.body ∧ responseHeadersGetter meta = meta.headers)
    ∧ (exposesResponseInfo (mkConfigurationError msg) = false
      ∧ exposesResponseInfo (mkSerializationError msg d) = false
      ∧ exposesResponseInfo (mkDeserializationError msg s) = false
      ∧ exposesResponseInfo (mkTimeoutError msg none) = false
      ∧ exposesResponseInfo (mkConnectionError msg none) = false
      ∧ exposesResponseInfo (mkRequestAbortedError msg none) = false) :=
  ⟨⟨rfl, rfl, rfl, rfl, rfl⟩, ⟨rfl, rfl⟩, ⟨rfl, rfl, rfl, rfl, rfl, rfl⟩⟩

/-- Claim C2: whenever the effective per-attempt timeout — the per-call
override when given, else the connection-level default — expires before the
handler completes the response, `Connection.request` fails with a
`TimeoutError` whose message is exactly "Request timed out". -/
theorem connection_timeout_fixed_message (conn : ConnectionConfig) (params : RequestParams)
    (env : Exchange) (hab : params.aborted = false)
    (ht : effectiveTimeout conn params < env.responseDelay) :
    (connectionRequest conn params env).result
      = .error (mkTimeoutError (some "Request timed out") none) := by
  simp [connectionRequest, hab, ht]

/-- Witness for C2: a 50 ms per-call override of a 200 ms connection default
against a handler responding after 100 ms. -/
theorem connection_timeout_fixed_message_witness :
    ({ timeout := some 50, aborted := false } : RequestParams).aborted = false
    ∧ effectiveTimeout { timeout := 200, maxBuffer := 100, maxString := 100 }
        { timeout := some 50, aborted := false } < 100
    ∧ (connectionRequest { timeout := 200, maxBuffer := 100, maxString := 100 }
        { timeout := some 50, aborted := false }
        { responseDelay := 100, contentLength := 2, encoding := .identity,
          chunks := [[111, 107]] }).result
      = .error (mkTimeoutError (some "Request timed out") none) :=
  ⟨rfl, by decide, connection_timeout_fixed_message _ _ _ rfl (by decide)⟩

/-- Claim C3: supplying both a manual connection-reuse (agent) option and a
proxy option makes construction fail synchronously with a
`ConfigurationError` (construction is a pure function of the options, so no
network is touched), and a `ConfigurationError` never surfaces from
`Connection.request`. -/
theorem connection_agent_proxy_configuration_error (o : ConnectionOptions)
    (ha : o.agent.isSome = true) (hp : o.proxy.isSome = true) :
    mkConnection o = .error (mkConfigurationError (some agentProxyConflictMessage))
    ∧ ∀ (conn : ConnectionConfig) (params : RequestParams) (env : Exchange),
        resultIsConfigurationError (connectionRequest conn params env) = false := by
  refine ⟨?_, fun conn params env => connectionRequest_no_configuration_error conn params env⟩
  simp [mkConnection, ha, hp]

/-- Witness for C3: an agent options object together with a proxy URL. -/
theorem connection_agent_proxy_configuration_error_witness :
    ({ agent := some .options, proxy := some "http://localhost:9201", timeout := 30000,
          maxBuffer := 100, maxString := 100 } : ConnectionOptions).agent.isSome = true
    ∧ ({ agent := some .options, proxy := some "http://localhost:9201", timeout := 30000,
          maxBuffer := 100, maxString := 100 } : ConnectionOptions).proxy.isSome = true
    ∧ mkConnection
        { agent := some .options, proxy := some "http://localhost:9201",
          timeout := 30000, maxBuffer := 100, maxString := 100 }
      = .error (mkConfigurationError (some agentProxyConflictMessage)) :=
  ⟨rfl, rfl,
    (connection_agent_proxy_configuration_error
      { agent := some .options, proxy := some "http://localhost:9201",
        timeout := 30000, maxBuffer := 100, maxString := 100 } rfl rfl).1⟩

/-- Claim C4: a declared `content-length` exceeding the buffer cap (or the
string cap) aborts with a `RequestAbortedError` naming the offending size
and the configured limit, with nothing allocated; when the declared length
is within bounds but the observed byte count overruns a cap, the transfer
aborts with such an error and the bytes retained stay at or below the limit
and strictly below the offending size. -/
theorem connection_size_caps (conn : ConnectionConfig) (params : RequestParams) (env : Exchange)
    (hab : params.aborted = false)
    (ht : ¬ effectiveTimeout conn params < env.responseDelay) :
    (conn.maxBuffer < env.contentLength →
      (connectionRequest conn params env).result
        = .error (mkRequestAbortedError
            (some (bufferCapMessage env.contentLength conn.maxBuffer)) none)
      ∧ (connectionRequest conn params env).allocated = 0)
    ∧ (env.contentLength ≤ conn.maxBuffer → conn.maxString < env.contentLength →
      (connectionRequest conn params env).result
        = .error (mkRequestAbortedError
            (some (stringCapMessage env.contentLength conn.maxString)) none)
      ∧ (connectionRequest conn params env).allocated = 0)
    ∧ (env.contentLength ≤ conn.maxBuffer → env.contentLength ≤ conn.maxString →
      (conn.maxBuffer < totalBytes env.chunks ∨ conn.maxString < totalBytes env.chunks) →
      ∃ n limit, limit < n
        ∧ (connectionRequest conn params env).allocated ≤ limit
        ∧ (connectionRequest conn params env).allocated < n
        ∧ ((limit = conn.maxBuffer ∧ (connectionRequest conn params env).result
              = .error (mkRequestAbortedError (some (bufferCapMessage n limit)) none))
          ∨ (limit = conn.maxString ∧ (connectionRequest conn params env).result
              = .error (mkRequestAbortedError (some (stringCapMessage n limit)) none)))) := by
  refine ⟨?_, ?_, ?_⟩
  · intro h1
    rw [connectionRequest, if_neg (by simp [hab]), if_neg ht, if_pos h1]
    exact ⟨rfl, rfl⟩
  · intro h1 h2
    rw [connectionRequest, if_neg (by simp [hab]), if_neg ht, if_neg (by omega), if_pos h2]
    exact ⟨rfl, rfl⟩
  · intro h1 h2 hover
    have hreq : connectionRequest conn params env =
        { result := (accumChunks conn.maxBuffer conn.maxString [] env.chunks).1.map
            (fun bytes => { raw := bytes, encoding := env.encoding })
          networkTouched := true, attempts := 1
          allocated := (accumChunks conn.maxBuffer conn.maxString [] env.chunks).2 } := by
      rw [connectionRequest, if_neg (by simp [hab]), if_neg ht, if_neg (by omega),
        if_neg (by omega)]
    obtain ⟨n, limit, hlt, halloc, hcase⟩ :=
      accumChunks_overflow env.chunks conn.maxBuffer conn.maxString []
        (by simp) (by simp) (by simpa using hover)
    have halloc2 : (connectionRequest conn params env).allocated
        = (accumChunks conn.maxBuffer conn.maxString [] env.chunks).2 := by
      rw [hreq]
    refine ⟨n, limit, hlt, ?_, ?_, ?_⟩
    · rw [halloc2]
      exact halloc
    · rw [halloc2]
      omega
    · rcases hcase with ⟨hl, he⟩ | ⟨hl, he⟩
      · exact Or.inl ⟨hl, by rw [hreq]; simp [he, Except.map]⟩
      · exact Or.inr ⟨hl, by rw [hreq]; simp [he, Except.map]⟩

/-- Witness for C4: a declared content length of 120 against a 100-byte
buffer cap aborts with the exact message and zero allocation. -/
theorem connection_size_caps_witness :
    ({ timeout := none, aborted := false } : RequestParams).aborted = false
    ∧ ¬ effectiveTimeout { timeout := 200, maxBuffer := 100, maxString := 50 }
          { timeout := none, aborted := false } < 0
    ∧ (100 : Nat) < 120
    ∧ (connectionRequest { timeout := 200, maxBuffer := 100, maxString := 50 }
          { timeout := none, aborted := false }
          { responseDelay := 0, contentLength := 120, encoding := .gzip, chunks := [] }).result
        = .error (mkRequestAbortedError (some (bufferCapMessage 120 100)) none)
    ∧ (connectionRequest { timeout := 200, maxBuffer := 100, maxString := 50 }
          { timeout := none, aborted := false }
          { responseDelay := 0, contentLength := 120, encoding := .gzip,
            chunks := [] }).allocated = 0 := by
  have h := (connection_size_caps { timeout := 200, maxBuffer := 100, maxString := 50 }
    { timeout := none, aborted := false }
    { responseDelay := 0, contentLength := 120, encoding := .gzip, chunks := [] }
    rfl (by decide)).1 (by decide)
  exact ⟨rfl, by decide, by decide, h.1, h.2⟩

/-- Claim C5: when the cancellation token has already fired before the
attempt issues I/O, `Connection.request` fails immediately with a
`RequestAbortedError`, no network request is made, and zero attempts are
counted. -/
theorem connection_abort_before_send (conn : ConnectionConfig) (params : RequestParams)
    (env : Exchange) (h : params.aborted = true) :
    (connectionRequest conn params env).result
      = .error (mkRequestAbortedError (some "Request aborted") none)
    ∧ (connectionRequest conn params env).networkTouched = false
    ∧ (connectionRequest conn params env).attempts = 0 := by
  simp [connectionRequest, h]

/-- Witness for C5: a token fired before the send. -/
theorem connection_abort_before_send_witness :
    ({ timeout := none, aborted := true } : RequestParams).aborted = true
    ∧ (connectionRequest { timeout := 30000, maxBuffer := 100, maxString := 100 }
          { timeout := none, aborted := true }
          { responseDelay := 0, contentLength := 2, encoding := .identity,
            chunks := [[111, 107]] }).result
        = .error (mkRequestAbortedError (some "Request aborted") none)
    ∧ (connectionRequest { timeout := 30000, maxBuffer := 100, maxString := 100 }
          { timeout := none, aborted := true }
          { responseDelay := 0, contentLength := 2, encoding := .identity,
            chunks := [[111, 107]] }).networkTouched = false
    ∧ (connectionRequest { timeout := 30000, maxBuffer := 100, maxString := 100 }
          { timeout := none, aborted := true }
          { responseDelay := 0, contentLength := 2, encoding := .identity,
            chunks := [[111, 107]] }).attempts = 0 := by
  have h := connection_abort_before_send { timeout := 30000, maxBuffer := 100, maxString := 100 }
    { timeout := none, aborted := true }
    { responseDelay := 0, contentLength := 2, encoding := .identity, chunks := [[111, 107]] }
    rfl
  exact ⟨rfl, h.1, h.2.1, h.2.2⟩

/-- Claim C6: with a pool of `k` distinct alive nodes and retry budget `r`,
a call whose every attempt fails with `ConnectionError` performs exactly
`min(k, r + 1)` node selections, all of distinct node ids. -/
theorem transport_retry_distinct_selections (pool : List String) (r : Nat)
    (h : pool.Nodup) :
    (transportSelections pool r).length = min pool.length (r + 1)
    ∧ (transportSelections pool r).Nodup := by
  have h0 : (candidates pool []).Nodup := by
    rw [candidates_nil]
    exact h
  obtain ⟨hlen, hnd, _⟩ := retryLoop_spec pool r [] h0
  rw [candidates_nil] at hlen
  exact ⟨hlen, hnd⟩

/-- Witness for C6: three alive nodes and `maxRetries = 1` give exactly
`min 3 2 = 2` distinct selections. -/
theorem transport_retry_distinct_selections_witness :
    (["n1", "n2", "n3"] : List String).Nodup
    ∧ ((transportSelections ["n1", "n2", "n3"] 1).length = min 3 2
      ∧ (transportSelections ["n1", "n2", "n3"] 1).Nodup) :=
  ⟨by decide, transport_retry_distinct_selections ["n1", "n2", "n3"] 1 (by decide)⟩

/-- Claim C7: compressing any byte sequence with gzip or with deflate and
decompressing with the matching decoder returns the original byte sequence
unchanged, through the response-body decoding used by response handling. -/
theorem compression_round_trip (l : List Nat) :
    decodeResponseBody .gzip (gzipEnc l) = some l
    ∧ decodeResponseBody .deflate (deflateEnc l) = some l :=
  ⟨gunzipDec_gzipEnc l, inflateDec_deflateEnc l⟩

/-- Claim C8, counterexample: the claim states the `statusCode` getter
returns `meta.statusCode` whenever `meta.body` is not an object with a
numeric `status`; but for a `null` body — for which
`typeof meta.body === 'object'` holds — the getter's non-optional access
`meta.body.status` throws a `TypeError` instead of returning
`meta.statusCode`. -/
theorem responseError_statusCode_null_body_cex :
    responseStatusCodeGetter
        { body := .null, statusCode := some 200, headers := none, nodeId := none }
      = .error "TypeError"
    ∧ responseStatusCodeGetter
        { body := .null, statusCode := some 200, headers := none, nodeId := none }
      ≠ .ok (some 200) :=
  ⟨rfl, by simp [responseStatusCodeGetter, jsTypeof, getProp]⟩

/-- Claim C8, amended: the `statusCode` getter returns `meta.body.status`
when `meta.body` is a non-null object with a numeric `status` field;
returns `meta.statusCode` when `typeof meta.body` is not `"object"`, or the
body is an object (including an array) without a numeric `status`; and
throws a `TypeError` when `meta.body` is `null`.  The `body` and `headers`
getters always return `meta.body` and `meta.headers` unchanged. -/
theorem responseError_getters (meta : Result) :
    (meta.body = .null → responseStatusCodeGetter meta = .error "TypeError")
    ∧ (∀ fields n, meta.body = .object fields →
        fields.lookup "status" = some (.number n) →
        responseStatusCodeGetter meta = .ok (some n))
    ∧ (jsTypeof meta.body ≠ "object" → responseStatusCodeGetter meta = .ok meta.statusCode)
    ∧ (∀ fields, meta.body = .object fields →
        (∀ n, fields.lookup "status" ≠ some (.number n)) →
        responseStatusCodeGetter meta = .ok meta.statusCode)
    ∧ (∀ elems, meta.body = .array elems → responseStatusCodeGetter meta = .ok meta.statusCode)
    ∧ responseBodyGetter meta = meta.body
    ∧ responseHeadersGetter meta = meta.headers := by
  refine ⟨?_, ?_, ?_, ?_, ?_, rfl, rfl⟩
  · intro h
    simp [responseStatusCodeGetter, h, jsTypeof, getProp]
  · intro fields n h hl
    simp [responseStatusCodeGetter, h, jsTypeof, getProp, hl]
  · intro h
    simp [responseStatusCodeGetter, h]
  · intro fields h hnn
    cases hv : fields.lookup "status" with
    | none => simp [responseStatusCodeGetter, h, jsTypeof, getProp, hv]
    | some v =>
      cases v with
      | undefined => simp [responseStatusCodeGetter, h, jsTypeof, getProp, hv]
      | null => simp [responseStatusCodeGetter, h, jsTypeof, getProp, hv]
      | boolean b => simp [responseStatusCodeGetter, h, jsTypeof, getProp, hv]
      | number n => exact absurd hv (hnn n)
      | string s => simp [responseStatusCodeGetter, h, jsTypeof, getProp, hv]
      | object fs => simp [responseStatusCodeGetter, h, jsTypeof, getProp, hv]
      | array es => simp [responseStatusCodeGetter, h, jsTypeof, getProp, hv]
  · intro elems h
    simp [responseStatusCodeGetter, h, jsTypeof, getProp]

/-- Witness for C8 (amended): a body with numeric `status` 503 wins over
`meta.statusCode`; a string body falls back to `meta.statusCode`. -/
theorem responseError_getters_witness :
    responseStatusCodeGetter
        { body := .object [("status", .number 503)], statusCode := some 200,
          headers := none, nodeId := none } = .ok (some 503)
    ∧ responseStatusCodeGetter
        { body := .string "oops", statusCode := some 200,
          headers := none, nodeId := none } = .ok (some 200) :=
  ⟨(responseError_getters _).2.1 [("status", .number 503)] 503 rfl rfl,
   (responseError_getters _).2.2.1 (by decide)⟩

/-- Claim C9: the `ResponseError` message equals `meta.body.error.type`
when the body is an object with a non-nullish `error.type` (reached through
optional chaining), and the string "Response Error" in every other case. -/
theorem responseError_message_spec (meta : Result) :
    (jsTypeof meta.body = "object" → isNullish (errType meta) = false →
        (mkResponseError meta).message = errType meta)
    ∧ (jsTypeof meta.body ≠ "object" →
        (mkResponseError meta).message = .string "Response Error")
    ∧ (isNullish (errType meta) = true →
        (mkResponseError meta).message = .string "Response Error") := by
  refine ⟨?_, ?_, ?_⟩
  · intro ho hn
    simp [mkResponseError, responseErrorMessage, nullishCoalesce, ho, hn]
  · intro ho
    simp [mkResponseError, responseErrorMessage, ho]
  · intro hn
    simp [mkResponseError, responseErrorMessage, nullishCoalesce, hn]

/-- Witness for C9: a body carrying `error.type = "boom"` surfaces "boom";
a numeric body falls back to "Response Error". -/
theorem responseError_message_spec_witness :
    (mkResponseError
        { body := .object [("error", .object [("type", .string "boom")])],
          statusCode := none, headers := none, nodeId := none }).message = .string "boom"
    ∧ (mkResponseError
        { body := .number 500, statusCode := none, headers := none,
          nodeId := none }).message = .string "Response Error" :=
  ⟨(responseError_message_spec _).1 rfl rfl,
   (responseError_message_spec _).2.1 (by decide)⟩

/-- Claim C10: every class of the taxonomy extends
`ElasticsearchClientError`, sets `name` to its own class name, and falls
back to its class-specific default message when the supplied message is
nullish (for `ResponseError`, whose constructor takes no message, when the
body supplies no non-nullish `error.type`). -/
theorem error_taxonomy_invariants (c : ErrClass) (msg : Option String) (meta : Result)
    (d : JSValue) :
    "ElasticsearchClientError" ∈ protoChain c
    ∧ (construct c msg meta d).cls = c
    ∧ (construct c msg meta d).name = className c
    ∧ (msg = none → (c = .responseError → isNullish (errType meta) = true) →
        (construct c msg meta d).message = .string (defaultMessage c)) := by
  refine ⟨by simp [protoChain], ?_, ?_, ?_⟩
  · cases c <;> rfl
  · cases c <;> rfl
  · intro hmsg hre
    subst hmsg
    cases c with
    | responseError =>
      have h := hre rfl
      simp [construct, mkResponseError, responseErrorMessage, nullishCoalesce, h,
        defaultMessage]
    | timeoutError => rfl
    | connectionError => rfl
    | noLivingConnectionsError => rfl
    | serializationError => rfl
    | deserializationError => rfl
    | configurationError => rfl
    | requestAbortedError => rfl

/-- Witness for C10: a `ResponseError` over a `null` body has name
"ResponseError", is an `ElasticsearchClientError`, and carries the default
message. -/
theorem error_taxonomy_invariants_witness :
    "ElasticsearchClientError" ∈ protoChain ErrClass.responseError
    ∧ (construct .responseError none
        { body := .null, statusCode := none, headers := none, nodeId := none }
        .undefined).cls = .responseError
    ∧ (construct .responseError none
        { body := .null, statusCode := none, headers := none, nodeId := none }
        .undefined).name = className .responseError
    ∧ (construct .responseError none
        { body := .null, statusCode := none, headers := none, nodeId := none }
        .undefined).message = .string (defaultMessage .responseError) := by
  obtain ⟨h1, h2, h3, h4⟩ := error_taxonomy_invariants .responseError none
    { body := .null, statusCode := none, headers := none, nodeId := none } .undefined
  exact ⟨h1, h2, h3, h4 rfl (fun _ => rfl)⟩

end ElasticTransport
